import Mathlib

/-!
Verification development for the Multimodal Affect & Risk Engine of a
mental-health companion application.

The Python source is shallowly embedded: floats are modelled as rationals
(`ℚ`), dictionaries `{"label": ..., "score": ...}` as the structure
`Emotion`, Python `None` as `Option.none`, and the Python dict built in the
three-input fusion branch as an association list with last-write-wins
insertion (`insertKV`), matching Python dict-literal semantics for
duplicate keys.  External effectful collaborators (the ML classifier
pipelines, the Ollama backend, the MongoDB sink) are modelled as explicit
inputs / oracle parameters of the embedded functions; everything
deterministic in the source is translated directly.
-/

/-- A per-modality emotion estimate: Python dict `{"label": l, "score": s}`
from `emotion_model.py`. -/
structure Emotion where
  label : String
  score : ℚ
deriving DecidableEq, Repr

/-- Insert into an association list with Python dict-literal semantics:
if the key is already present its value is replaced in place (last write
wins, position kept), otherwise the pair is appended at the end. -/
def insertKV : List (String × ℚ) → String → ℚ → List (String × ℚ)
  | [], k, v => [(k, v)]
  | p :: rest, k, v =>
      if p.1 = k then (k, v) :: rest else p :: insertKV rest k v

/-- Fold keeping the current pair unless a later pair has a strictly
larger value: Python `max(..., key=...)` keeps the first maximum in
iteration order. -/
def maxPair : (String × ℚ) → List (String × ℚ) → (String × ℚ)
  | p, [] => p
  | p, q :: rest => maxPair (if q.2 > p.2 then q else p) rest

/-- `max(scores, key=scores.get)` on an association list with unique keys,
paired with the value at that key (`scores[fused_label]`). -/
def maxByValue : List (String × ℚ) → (String × ℚ)
  | [] => ("unknown", 0)
  | p :: rest => maxPair p rest

/-- `EmotionDetector.fuse_emotions` from `emotion_model.py` (lines
187-234).  The three optional arguments mirror the Python parameters
`text_emotion`, `audio_emotion`, `image_emotion`; the eight cases of the
match mirror the truthiness tests of the Python `if`/`elif`/`else`
chain.  In the three-input branch the Python dict literal
`{text.label: ..., audio.label: ..., image.label: ...}` is built with
`insertKV`, so a later modality sharing a label with an earlier one
replaces (not adds to) its weighted score, exactly as a Python dict
literal does. -/
def fuse_emotions (text_emotion audio_emotion image_emotion : Option Emotion) : Emotion :=
  match text_emotion, audio_emotion, image_emotion with
  | some t, none, some i =>
      if t.label = i.label then
        ⟨t.label, t.score * (7/10) + i.score * (3/10)⟩
      else
        ⟨if t.score * (7/10) ≥ i.score * (3/10) then t.label else i.label,
         max (t.score * (7/10)) (i.score * (3/10))⟩
  | none, some a, some i =>
      if a.label = i.label then
        ⟨a.label, a.score * (6/10) + i.score * (4/10)⟩
      else
        ⟨if a.score * (6/10) ≥ i.score * (4/10) then a.label else i.label,
         max (a.score * (6/10)) (i.score * (4/10))⟩
  | some t, some a, some i =>
      let scores :=
        insertKV (insertKV (insertKV [] t.label (t.score * (5/10)))
          a.label (a.score * (3/10))) i.label (i.score * (2/10))
      let m := maxByValue scores
      ⟨m.1, m.2⟩
  | some t, none, none => t
  | some t, some _, none => t
  | none, some a, none => a
  | none, none, some i => i
  | none, none, none => ⟨"unknown", 0⟩

/-- The fixed `depression_indicators` table of
`EmotionDetector.detect_depression` (lines 276-289): dictionary lookup
with default `0.3` for unrecognized labels. -/
def depression_indicators (label : String) : ℚ :=
  if label = "sadness" then 8/10
  else if label = "fear" then 6/10
  else if label = "anger" then 4/10
  else if label = "disgust" then 5/10
  else if label = "neutral" then 2/10
  else if label = "joy" then 0
  else if label = "surprise" then 1/10
  else 3/10

/-- `EmotionDetector._classify_depression_level` (lines 297-304). -/
def classify_depression_level (score : ℚ) : String :=
  if score < 3/10 then "low"
  else if score < 6/10 then "moderate"
  else "high"

/-- Python `round(x, 2)`: rounding to two decimal places (ties modelled
with Mathlib `round`). -/
def round2 (q : ℚ) : ℚ := ((round (q * 100) : ℤ) : ℚ) / 100

/-- Python `str.lower()`: character-wise lowercasing. -/
def py_lower (s : String) : String := ⟨s.data.map Char.toLower⟩

/-- The result dict of `EmotionDetector.detect_depression` (lines
291-295). -/
structure DepressionResult where
  emotional_state : Emotion
  depression_score : ℚ
  depression_level : String
deriving DecidableEq, Repr

/-- `EmotionDetector.detect_depression` (lines 244-295), from the point
where the per-modality estimates are in hand: the per-modality classifier
calls are external ML pipelines (each yielding an emotion dict or, on
failure, nothing), so they enter as the three optional arguments.  The
deterministic tail — fusion, indicator lookup on the lowercased label,
scoring, rounding and level classification — is translated directly.
Note the source classifies the *unrounded* score but reports the rounded
one. -/
def detect_depression (text_em audio_em image_em : Option Emotion) : DepressionResult :=
  let fused := fuse_emotions text_em audio_em image_em
  let label := py_lower fused.label
  let depression_score := depression_indicators label * fused.score
  ⟨fused, round2 depression_score, classify_depression_level depression_score⟩

/-! ## Chat service (`chat_service.py`) -/

/-- A conversation-history entry: Python dict `{"role": r, "content": c}`. -/
structure ChatMessage where
  role : String
  content : String
deriving DecidableEq, Repr

/-- The entry pushed onto the user document's `emotional_data` array by
`ChatService.send_message` (timestamp, an external clock value, is
omitted). -/
structure EmotionalEvent where
  source : String
  text : String
  emotion : Emotion
  depression_score : ℚ
deriving DecidableEq, Repr

/-- The entry pushed onto the user document's `depression_scores` array
(timestamp omitted). -/
structure DepressionRecord where
  score : ℚ
  level : String
deriving DecidableEq, Repr

/-- The two fields of the depression-analysis dict that
`ChatService.send_message` reads (`depression_score`,
`depression_level`); on the analysis error path the source substitutes
the literal dict `{"depression_score": 0.0, "depression_level":
"unknown"}`, which carries exactly these two keys. -/
structure DepressionInfo where
  depression_score : ℚ
  depression_level : String
deriving DecidableEq, Repr

/-- Mutable state touched by `ChatService.send_message`: the in-memory
`conversation_history` list plus the two append-only arrays of the user
document in the database sink. -/
structure ChatState where
  conversation_history : List ChatMessage
  emotional_data : List EmotionalEvent
  depression_scores : List DepressionRecord
deriving DecidableEq, Repr

/-- The value returned by `ChatService.send_message`: always a role and a
content string; the success path additionally carries the `emotion` and
`depression` fields, the early-return and failure paths do not. -/
structure ChatReply where
  role : String
  content : String
  emotion : Option Emotion
  depression : Option DepressionInfo
deriving DecidableEq, Repr

/-- Python `str.strip()` whitespace characters (space, tab, newline,
carriage return, vertical tab, form feed). -/
def isPyWhitespace (c : Char) : Bool :=
  c = ' ' || c = '\t' || c = '\n' || c = '\r' || c = '\x0b' || c = '\x0c'

/-- Python truthiness test `not message or not message.strip()`: the
string is empty, or stripping leading/trailing whitespace leaves it
empty, i.e. every character is whitespace. -/
def is_blank (message : String) : Bool :=
  message.data.isEmpty || message.data.all isPyWhitespace

/-- Fixed addendum strings of
`ChatService._enhance_response_with_emotional_context` (lines 195-230). -/
def resources_addendum : String :=
  "\n\nIf you\x27re feeling overwhelmed, remember that help is available. Consider talking to a trusted friend, family member, or mental health professional. You don\x27t have to face these feelings alone."

def encouragement_addendum : String :=
  "\n\nRemember that it\x27s okay to have difficult days. Taking small steps to care for yourself can make a difference. Perhaps try a short walk outside or connect with someone you trust."

def sadness_addendum : String :=
  "\n\nWhen feelings of sadness are present, it can help to engage your senses. Maybe try listening to a favorite uplifting song, enjoying a warm drink, or stepping outside for some fresh air."

def fear_addendum : String :=
  "\n\nWhen anxiety or fear feels strong, grounding techniques can help. Try the 5-4-3-2-1 technique: notice 5 things you see, 4 things you can touch, 3 things you hear, 2 things you smell, and 1 thing you taste."

def anger_addendum : String :=
  "\n\nWhen strong emotions like frustration arise, taking a moment for some deep breaths can help create space between feelings and reactions. Breathing in for 4 counts and out for 6 can be especially calming."

def joy_addendum : String :=
  "\n\nIt\x27s wonderful to experience these positive feelings. Taking a moment to savor and appreciate them can help extend their benefits."

/-- `ChatService._enhance_response_with_emotional_context` (lines
195-230): a risk-tier addendum (`if`/`elif` chain on the depression
analysis) followed by an emotion-specific addendum (`if`/`elif` chain on
the lowercased emotion label), both appended to the response text. -/
def enhance_response (response : String) (emotion : Emotion) (depression : DepressionInfo) : String :=
  let r1 :=
    if depression.depression_level = "high" ∧ depression.depression_score > 7/10 then
      response ++ resources_addendum
    else if depression.depression_level = "moderate" ∧ depression.depression_score > 4/10 then
      response ++ encouragement_addendum
    else response
  let l := py_lower emotion.label
  if l = "sadness" ∧ emotion.score > 7/10 then r1 ++ sadness_addendum
  else if l = "fear" ∧ emotion.score > 7/10 then r1 ++ fear_addendum
  else if l = "anger" ∧ emotion.score > 7/10 then r1 ++ anger_addendum
  else if l = "joy" ∧ emotion.score > 7/10 then r1 ++ joy_addendum
  else r1

/-- The canned clarification reply for empty input
(`chat_service.py` line 73). -/
def clarification_reply : String :=
  "I didn\x27t catch that. Could you please say something?"

/-- The generic failure reply of the outer `except` of `send_message`
(`chat_service.py` line 191). -/
def trouble_connecting_reply : String :=
  "I\x27m having trouble connecting right now. Could you try again?"

/-- `ChatService.send_message` (lines 70-193).  External effects enter as
oracle parameters: `hasDb` is the truthiness of `self.db and
self.user_id`; `analysisResult` is the outcome of the analysis `try`
block (lines 80-108) — `some (emotion, depression)` when
`detect_from_text`/`detect_depression` and the database push complete,
`none` when any exception is raised there, in which case the source
substitutes `{"label": "unknown", "score": 0.0}` and
`{"depression_score": 0.0, "depression_level": "unknown"}`; `genResult`
is the outcome of the response-generation `try` block (lines 115-187) —
`some content` when it produces an assistant message (via Ollama or the
rule-based fallback, both inside that block), `none` when it raises, in
which case the outer `except` (lines 189-193) appends and returns the
generic trouble-connecting reply. -/
def send_message (message : String) (hasDb : Bool)
    (analysisResult : Option (Emotion × DepressionInfo))
    (genResult : Option String) (st : ChatState) : ChatState × ChatReply :=
  if is_blank message then
    (st, ⟨"assistant", clarification_reply, none, none⟩)
  else
    let st1 : ChatState :=
      { st with conversation_history := st.conversation_history ++ [⟨"user", message⟩] }
    let emotion_result := (analysisResult.map Prod.fst).getD ⟨"unknown", 0⟩
    let depression_analysis := (analysisResult.map Prod.snd).getD ⟨0, "unknown"⟩
    let st2 : ChatState :=
      if analysisResult.isSome && hasDb then
        { st1 with
          emotional_data := st1.emotional_data ++
            [⟨"chat", message, emotion_result, depression_analysis.depression_score⟩],
          depression_scores := st1.depression_scores ++
            [⟨depression_analysis.depression_score, depression_analysis.depression_level⟩] }
      else st1
    match genResult with
    | some content =>
        let st3 : ChatState :=
          { st2 with conversation_history := st2.conversation_history ++ [⟨"assistant", content⟩] }
        (st3, ⟨"assistant", enhance_response content emotion_result depression_analysis,
               some emotion_result, some depression_analysis⟩)
    | none =>
        ({ st2 with conversation_history :=
             st2.conversation_history ++ [⟨"assistant", trouble_connecting_reply⟩] },
         ⟨"assistant", trouble_connecting_reply, none, none⟩)

/-! ## Dashboard risk and narrative report (`app.py`) -/

/-- `depression_scores[-5:]`: the most recent five entries of a
chronologically sorted list. -/
def lastN (n : Nat) (l : List ℚ) : List ℚ := l.drop (l.length - n)

/-- The overall-risk mean of the `dashboard` route (`app.py` lines
117-121): `avg_score = 0` when there are no scores, otherwise the mean
over the last five scores (or all of them when fewer than five). -/
def dashboard_avg (scores : List ℚ) : ℚ :=
  if scores = [] then 0
  else
    let recent := if scores.length ≥ 5 then lastN 5 scores else scores
    recent.sum / (recent.length : ℚ)

/-- The risk badge of the `dashboard` route (`app.py` lines 123-127):
initialized to `"Low"`, upgraded by strict comparisons. -/
def dashboard_risk (avg_score : ℚ) : String :=
  if avg_score > 6/10 then "High"
  else if avg_score > 3/10 then "Moderate"
  else "Low"

/-- The three fixed summary templates of `generate_depression_report`
(`app.py` lines 601-606). -/
def summary_high : String :=
  "Based on your conversation patterns, there are indicators of significant depressive symptoms. The analysis shows persistent negative emotional expressions and language patterns associated with depression."

def summary_moderate : String :=
  "Your conversation patterns show some indicators of mild to moderate depressive symptoms. While there are some positive emotions present, there are also notable periods of negative emotional expression."

def summary_low : String :=
  "Based on your conversation patterns, your depression risk appears to be low. The analysis shows generally balanced emotional responses with predominantly positive or neutral expressions."

/-- Template selection of `generate_depression_report` (`app.py` lines
599-606): strict threshold comparisons on the mean depression score. -/
def report_summary (avg_depression_score : ℚ) : String :=
  if avg_depression_score > 6/10 then summary_high
  else if avg_depression_score > 3/10 then summary_moderate
  else summary_low

/-! ## Helper lemmas -/

/-- `maxPair` returns its accumulator or an element of its list. -/
theorem maxPair_mem (l : List (String × ℚ)) :
    ∀ p : String × ℚ, maxPair p l = p ∨ maxPair p l ∈ l := by
  induction l with
  | nil => intro p; left; rfl
  | cons q rest ih =>
      intro p
      simp only [maxPair]
      rcases ih (if q.2 > p.2 then q else p) with h | h
      · rw [h]
        split
        · right; exact List.mem_cons_self _ _
        · left; rfl
      · right; exact List.mem_cons_of_mem _ h

/-- Values inserted by `insertKV` preserve a value predicate. -/
theorem insertKV_forall (P : ℚ → Prop) (l : List (String × ℚ)) (k : String) (v : ℚ)
    (hl : ∀ q ∈ l, P q.2) (hv : P v) : ∀ q ∈ insertKV l k v, P q.2 := by
  induction l with
  | nil =>
      intro q hq
      simp only [insertKV, List.mem_singleton] at hq
      rw [hq]; exact hv
  | cons p rest ih =>
      intro q hq
      simp only [insertKV] at hq
      split at hq
      · rcases List.mem_cons.mp hq with h | h
        · rw [h]; exact hv
        · exact hl q (List.mem_cons_of_mem _ h)
      · rcases List.mem_cons.mp hq with h | h
        · rw [h]; exact hl p (List.mem_cons_self _ _)
        · exact ih (fun r hr => hl r (List.mem_cons_of_mem _ hr)) q h

/-- The value selected by `maxByValue` from a list of values in the unit
interval lies in the unit interval. -/
theorem maxByValue_bound (l : List (String × ℚ))
    (h : ∀ q ∈ l, 0 ≤ q.2 ∧ q.2 ≤ 1) :
    0 ≤ (maxByValue l).2 ∧ (maxByValue l).2 ≤ 1 := by
  cases l with
  | nil => constructor <;> norm_num [maxByValue]
  | cons p rest =>
      rcases maxPair_mem rest p with heq | hmem
      · simp only [maxByValue]
        rw [heq]
        exact h p (List.mem_cons_self _ _)
      · simp only [maxByValue]
        exact h _ (List.mem_cons_of_mem _ hmem)

/-- Every entry of the depression-indicator table lies in the unit
interval. -/
theorem depression_indicators_bounds (label : String) :
    0 ≤ depression_indicators label ∧ depression_indicators label ≤ 1 := by
  unfold depression_indicators
  split_ifs <;> norm_num

/-- Rounding to two decimals preserves the unit interval. -/
theorem round2_bounds (q : ℚ) (h0 : 0 ≤ q) (h1 : q ≤ 1) :
    0 ≤ round2 q ∧ round2 q ≤ 1 := by
  unfold round2
  constructor
  · apply div_nonneg _ (by norm_num)
    have h2 : (0 : ℤ) ≤ round (q * 100) := by
      rw [round_eq]
      apply Int.le_floor.mpr
      push_cast
      linarith
    exact_mod_cast h2
  · rw [div_le_one (by norm_num)]
    have h2 : round (q * 100) ≤ 100 := by
      rw [round_eq]
      have hf : ((⌊q * 100 + 1/2⌋ : ℤ) : ℚ) ≤ q * 100 + 1/2 := Int.floor_le _
      have h3 : ((⌊q * 100 + 1/2⌋ : ℤ) : ℚ) < 101 := by linarith
      have h4 : (⌊q * 100 + 1/2⌋ : ℤ) < 101 := by exact_mod_cast h3
      omega
    exact_mod_cast h2

/-! ## Claim theorems -/

/-- C1: the spec claims that three-input fusion accumulates weighted
scores per distinct label (so agreeing modalities add) and that
text=(joy,0.9), audio=(joy,0.6), image=(sadness,0.8) fuses to
(joy, 0.63).  Evaluating the embedded source at that input shows the
fused score is 0.18 = 0.6*0.3, not 0.63: the Python dict literal
replaces (rather than adds to) the weighted score of an earlier modality
sharing the same label. -/
theorem C1_three_input_fusion_eval :
    fuse_emotions (some ⟨"joy", 9/10⟩) (some ⟨"joy", 6/10⟩) (some ⟨"sadness", 8/10⟩) =
      ⟨"joy", 9/50⟩ ∧ (9 : ℚ)/50 = 18/100 ∧ (9 : ℚ)/50 ≠ 63/100 := by
  refine ⟨?_, by norm_num, by norm_num⟩
  simp [fuse_emotions, insertKV, maxByValue, maxPair]
  norm_num

/-- C3: for pairs with equal labels and scores in the unit interval,
two-input fusion keeps the label and returns the weighted sum, with
weights (0.7, 0.3) for text+image and (0.6, 0.4) for audio+image. -/
theorem C3_two_input_agreement (a b : Emotion) (hl : a.label = b.label)
    (ha0 : 0 ≤ a.score) (ha1 : a.score ≤ 1) (hb0 : 0 ≤ b.score) (hb1 : b.score ≤ 1) :
    fuse_emotions (some a) none (some b) =
      ⟨a.label, a.score * (7/10) + b.score * (3/10)⟩ ∧
    fuse_emotions none (some a) (some b) =
      ⟨a.label, a.score * (6/10) + b.score * (4/10)⟩ := by
  constructor <;> simp [fuse_emotions, hl]

/-- Witness for C3 at text=(joy,0.5), image=(joy,0.25) and
audio=(joy,0.5), image=(joy,0.25). -/
theorem C3_two_input_agreement_witness :
    fuse_emotions (some ⟨"joy", 1/2⟩) none (some ⟨"joy", 1/4⟩) =
      ⟨"joy", (1/2 : ℚ) * (7/10) + (1/4 : ℚ) * (3/10)⟩ ∧
    fuse_emotions none (some ⟨"joy", 1/2⟩) (some ⟨"joy", 1/4⟩) =
      ⟨"joy", (1/2 : ℚ) * (6/10) + (1/4 : ℚ) * (4/10)⟩ :=
  C3_two_input_agreement ⟨"joy", 1/2⟩ ⟨"joy", 1/4⟩ rfl
    (by norm_num) (by norm_num) (by norm_num) (by norm_num)

/-- C4: for pairs with differing labels, two-input fusion returns the
label whose weighted score is larger, and the fused score is that
maximum weighted value itself (not the sum, not a raw score), for both
the text+image weights (0.7, 0.3) and the audio+image weights
(0.6, 0.4). -/
theorem C4_two_input_disagreement (a b : Emotion) (h : a.label ≠ b.label) :
    ((fuse_emotions (some a) none (some b)).score =
        max (a.score * (7/10)) (b.score * (3/10)) ∧
      (a.score * (7/10) > b.score * (3/10) →
        (fuse_emotions (some a) none (some b)).label = a.label) ∧
      (b.score * (3/10) > a.score * (7/10) →
        (fuse_emotions (some a) none (some b)).label = b.label)) ∧
    ((fuse_emotions none (some a) (some b)).score =
        max (a.score * (6/10)) (b.score * (4/10)) ∧
      (a.score * (6/10) > b.score * (4/10) →
        (fuse_emotions none (some a) (some b)).label = a.label) ∧
      (b.score * (4/10) > a.score * (6/10) →
        (fuse_emotions none (some a) (some b)).label = b.label)) := by
  refine ⟨⟨?_, ?_, ?_⟩, ⟨?_, ?_, ?_⟩⟩
  · simp [fuse_emotions, h]
  · intro hgt
    simp only [fuse_emotions]
    rw [if_neg h]
    simp only [Emotion.mk.injEq]
    rw [if_pos (le_of_lt hgt)]
  · intro hgt
    simp only [fuse_emotions]
    rw [if_neg h]
    simp only [Emotion.mk.injEq]
    rw [if_neg (not_le.mpr hgt)]
  · simp [fuse_emotions, h]
  · intro hgt
    simp only [fuse_emotions]
    rw [if_neg h]
    simp only [Emotion.mk.injEq]
    rw [if_pos (le_of_lt hgt)]
  · intro hgt
    simp only [fuse_emotions]
    rw [if_neg h]
    simp only [Emotion.mk.injEq]
    rw [if_neg (not_le.mpr hgt)]

/-- Witness for C4 at text=(sadness,1), image=(joy,1): the weighted
text score 0.7 beats the weighted image score 0.3, so the fused label is
"sadness" and the fused score is the maximum weighted value. -/
theorem C4_two_input_disagreement_witness :
    (fuse_emotions (some ⟨"sadness", 1⟩) none (some ⟨"joy", 1⟩)).score =
      max ((1 : ℚ) * (7/10)) ((1 : ℚ) * (3/10)) ∧
    (fuse_emotions (some ⟨"sadness", 1⟩) none (some ⟨"joy", 1⟩)).label = "sadness" :=
  ⟨(C4_two_input_disagreement ⟨"sadness", 1⟩ ⟨"joy", 1⟩ (by decide)).1.1,
   (C4_two_input_disagreement ⟨"sadness", 1⟩ ⟨"joy", 1⟩ (by decide)).1.2.1 (by norm_num)⟩

/-- C5: the depression score equals the fixed indicator weight of the
fused label (sadness 0.8, fear 0.6, disgust 0.5, anger 0.4, neutral 0.2,
surprise 0.1, joy 0.0, default 0.3 for any other label) times the fused
score, rounded to two decimal places. -/
theorem C5_depression_score_table (t a i : Option Emotion) :
    (py_lower (fuse_emotions t a i).label = "sadness" →
      (detect_depression t a i).depression_score =
        round2 ((8/10) * (fuse_emotions t a i).score)) ∧
    (py_lower (fuse_emotions t a i).label = "fear" →
      (detect_depression t a i).depression_score =
        round2 ((6/10) * (fuse_emotions t a i).score)) ∧
    (py_lower (fuse_emotions t a i).label = "disgust" →
      (detect_depression t a i).depression_score =
        round2 ((5/10) * (fuse_emotions t a i).score)) ∧
    (py_lower (fuse_emotions t a i).label = "anger" →
      (detect_depression t a i).depression_score =
        round2 ((4/10) * (fuse_emotions t a i).score)) ∧
    (py_lower (fuse_emotions t a i).label = "neutral" →
      (detect_depression t a i).depression_score =
        round2 ((2/10) * (fuse_emotions t a i).score)) ∧
    (py_lower (fuse_emotions t a i).label = "surprise" →
      (detect_depression t a i).depression_score =
        round2 ((1/10) * (fuse_emotions t a i).score)) ∧
    (py_lower (fuse_emotions t a i).label = "joy" →
      (detect_depression t a i).depression_score =
        round2 (0 * (fuse_emotions t a i).score)) ∧
    (py_lower (fuse_emotions t a i).label ≠ "sadness" →
      py_lower (fuse_emotions t a i).label ≠ "fear" →
      py_lower (fuse_emotions t a i).label ≠ "disgust" →
      py_lower (fuse_emotions t a i).label ≠ "anger" →
      py_lower (fuse_emotions t a i).label ≠ "neutral" →
      py_lower (fuse_emotions t a i).label ≠ "surprise" →
      py_lower (fuse_emotions t a i).label ≠ "joy" →
      (detect_depression t a i).depression_score =
        round2 ((3/10) * (fuse_emotions t a i).score)) := by
  refine ⟨?_, ?_, ?_, ?_, ?_, ?_, ?_, ?_⟩ <;>
    intros <;> simp [detect_depression, depression_indicators, *]

/-- Witness for C5 at a single text input (sadness, 1). -/
theorem C5_depression_score_table_witness :
    py_lower (fuse_emotions (some ⟨"sadness", 1⟩) none none).label = "sadness" ∧
    (detect_depression (some ⟨"sadness", 1⟩) none none).depression_score =
      round2 ((8/10) * (fuse_emotions (some ⟨"sadness", 1⟩) none none).score) :=
  ⟨by decide, (C5_depression_score_table (some ⟨"sadness", 1⟩) none none).1 (by decide)⟩

/-- C6: depression-level classification is the fixed-threshold step
function of the score alone: below 0.3 low, from 0.3 up to (excluding)
0.6 moderate, from 0.6 on high; in particular 0.3 maps to moderate and
0.6 maps to high. -/
theorem C6_level_thresholds :
    (∀ score : ℚ, score < 3/10 → classify_depression_level score = "low") ∧
    (∀ score : ℚ, 3/10 ≤ score → score < 6/10 →
      classify_depression_level score = "moderate") ∧
    (∀ score : ℚ, 6/10 ≤ score → classify_depression_level score = "high") ∧
    classify_depression_level (3/10) = "moderate" ∧
    classify_depression_level (6/10) = "high" := by
  refine ⟨?_, ?_, ?_, ?_, ?_⟩
  · intro s h
    simp [classify_depression_level, h]
  · intro s h1 h2
    unfold classify_depression_level
    rw [if_neg (not_lt.mpr h1), if_pos h2]
  · intro s h
    unfold classify_depression_level
    rw [if_neg (not_lt.mpr (by linarith)), if_neg (not_lt.mpr h)]
  · norm_num [classify_depression_level]
  · norm_num [classify_depression_level]

/-- Witness for C6 at scores 0.1, 0.45 and 0.7. -/
theorem C6_level_thresholds_witness :
    classify_depression_level (1/10) = "low" ∧
    classify_depression_level (9/20) = "moderate" ∧
    classify_depression_level (7/10) = "high" :=
  ⟨C6_level_thresholds.1 (1/10) (by norm_num),
   C6_level_thresholds.2.1 (9/20) (by norm_num) (by norm_num),
   C6_level_thresholds.2.2.1 (7/10) (by norm_num)⟩

/-- C2 counterexample: with a single recorded depression score of
exactly 0.3 the short-window mean is exactly 0.3, yet the dashboard risk
badge reads "Low" and the narrative report selects the low template —
while the level function classifies 0.3 as "moderate".  Likewise a mean
of exactly 0.6 yields "Moderate"/moderate template while the level
function says "high": the dashboard and report use strict comparisons,
not the level function's thresholds. -/
theorem C2_boundary_counterexample :
    dashboard_avg [3/10] = 3/10 ∧
    dashboard_risk (dashboard_avg [3/10]) = "Low" ∧
    dashboard_risk (dashboard_avg [3/10]) ≠ "Moderate" ∧
    report_summary (3/10) = summary_low ∧
    report_summary (3/10) ≠ summary_moderate ∧
    classify_depression_level (3/10) = "moderate" ∧
    dashboard_risk (6/10) = "Moderate" ∧
    report_summary (6/10) = summary_moderate ∧
    classify_depression_level (6/10) = "high" := by
  have havg : dashboard_avg [3/10] = 3/10 := by
    simp [dashboard_avg, lastN]
  refine ⟨havg, ?_, ?_, ?_, ?_, ?_, ?_, ?_, ?_⟩
  · rw [havg]; norm_num [dashboard_risk]
  · rw [havg]; norm_num [dashboard_risk]; decide
  · norm_num [report_summary]
  · norm_num [report_summary]; decide
  · norm_num [classify_depression_level]
  · norm_num [dashboard_risk]
  · norm_num [report_summary]
  · norm_num [classify_depression_level]

/-- C2 amended: the dashboard risk badge and the narrative report apply
*strict* comparisons to the mean of recent depression scores — mean
above 0.6 is high, above 0.3 (up to and including 0.6) is moderate, and
at or below 0.3 is low — so a mean of exactly 0.3 classifies as low and
a mean of exactly 0.6 as moderate, unlike the level function; the
short-window overall risk is the mean of depression_score over the most
recent 5 events, or over all of them when fewer than 5 exist, and 0 when
none exist. -/
theorem C2_strict_threshold_means :
    (∀ avg : ℚ, avg ≤ 3/10 →
      dashboard_risk avg = "Low" ∧ report_summary avg = summary_low) ∧
    (∀ avg : ℚ, 3/10 < avg → avg ≤ 6/10 →
      dashboard_risk avg = "Moderate" ∧ report_summary avg = summary_moderate) ∧
    (∀ avg : ℚ, 6/10 < avg →
      dashboard_risk avg = "High" ∧ report_summary avg = summary_high) ∧
    (∀ scores : List ℚ, scores.length ≥ 5 →
      dashboard_avg scores = (lastN 5 scores).sum / 5) ∧
    (∀ scores : List ℚ, scores ≠ [] → scores.length < 5 →
      dashboard_avg scores = scores.sum / scores.length) ∧
    dashboard_avg [] = 0 := by
  refine ⟨?_, ?_, ?_, ?_, ?_, ?_⟩
  · intro avg h
    constructor
    · unfold dashboard_risk
      rw [if_neg (not_lt.mpr (by linarith)), if_neg (not_lt.mpr h)]
    · unfold report_summary
      rw [if_neg (not_lt.mpr (by linarith)), if_neg (not_lt.mpr h)]
  · intro avg h1 h2
    constructor
    · unfold dashboard_risk
      rw [if_neg (not_lt.mpr h2), if_pos h1]
    · unfold report_summary
      rw [if_neg (not_lt.mpr h2), if_pos h1]
  · intro avg h
    constructor
    · unfold dashboard_risk
      rw [if_pos h]
    · unfold report_summary
      rw [if_pos h]
  · intro scores h
    have hne : scores ≠ [] := by
      intro he
      rw [he] at h
      simp at h
    have hlen : (lastN 5 scores).length = 5 := by
      simp only [lastN, List.length_drop]
      omega
    simp only [dashboard_avg, if_neg hne, ge_iff_le, if_pos h, hlen]
    norm_num
  · intro scores hne hlt
    have h5 : ¬ (scores.length ≥ 5) := by omega
    simp only [dashboard_avg, if_neg hne, ge_iff_le, if_neg h5]
  · simp [dashboard_avg]

/-- Witness for C2's amended statement at means 0.3, 0.5, 0.7 and a
six-element score list. -/
theorem C2_strict_threshold_means_witness :
    (dashboard_risk (3/10) = "Low" ∧ report_summary (3/10) = summary_low) ∧
    (dashboard_risk (1/2) = "Moderate" ∧ report_summary (1/2) = summary_moderate) ∧
    (dashboard_risk (7/10) = "High" ∧ report_summary (7/10) = summary_high) ∧
    dashboard_avg [1, 1, 1, 1, 1, 1] = (lastN 5 [1, 1, 1, 1, 1, 1]).sum / 5 ∧
    dashboard_avg [1, 1] = List.sum [1, 1] / List.length [1, 1] :=
  ⟨C2_strict_threshold_means.1 (3/10) (by norm_num),
   C2_strict_threshold_means.2.1 (1/2) (by norm_num) (by norm_num),
   C2_strict_threshold_means.2.2.1 (7/10) (by norm_num),
   C2_strict_threshold_means.2.2.2.1 [1, 1, 1, 1, 1, 1] (by norm_num),
   C2_strict_threshold_means.2.2.2.2.1 [1, 1] (by simp) (by norm_num)⟩

/-- C7: an empty or whitespace-only message is answered with the fixed
clarification reply, and neither the conversation history nor the
persisted emotional_data / depression_scores arrays change — the
analysis pipeline does not run. -/
theorem C7_blank_message_rejected (message : String) (hasDb : Bool)
    (analysisResult : Option (Emotion × DepressionInfo)) (genResult : Option String)
    (st : ChatState) (h : is_blank message = true) :
    send_message message hasDb analysisResult genResult st =
      (st, ⟨"assistant", clarification_reply, none, none⟩) := by
  simp [send_message, h]

/-- Witness for C7 at the whitespace-only message `"  "`. -/
theorem C7_blank_message_rejected_witness :
    send_message "  " true (some (⟨"joy", 1⟩, ⟨0, "low"⟩)) (some "hi") ⟨[], [], []⟩ =
      (⟨[], [], []⟩, ⟨"assistant", clarification_reply, none, none⟩) :=
  C7_blank_message_rejected "  " true (some (⟨"joy", 1⟩, ⟨0, "low"⟩)) (some "hi")
    ⟨[], [], []⟩ (by decide)

/-- C8: when the response-generation block fails on a non-empty turn
after a successful analysis step, the returned reply is the generic
trouble-connecting message (not a propagated error), and the
EmotionalEvent and DepressionRecord appended by the analysis step remain
in the persisted state. -/
theorem C8_generation_failure_keeps_records (message : String) (em : Emotion)
    (dep : DepressionInfo) (st : ChatState) (h : is_blank message = false) :
    (send_message message true (some (em, dep)) none st).2 =
      ⟨"assistant", trouble_connecting_reply, none, none⟩ ∧
    (send_message message true (some (em, dep)) none st).1.emotional_data =
      st.emotional_data ++ [⟨"chat", message, em, dep.depression_score⟩] ∧
    (send_message message true (some (em, dep)) none st).1.depression_scores =
      st.depression_scores ++ [⟨dep.depression_score, dep.depression_level⟩] := by
  refine ⟨?_, ?_, ?_⟩ <;> simp [send_message, h]

/-- Witness for C8 at the message `"hello"`. -/
theorem C8_generation_failure_keeps_records_witness :
    (send_message "hello" true (some (⟨"joy", 1/2⟩, ⟨1/10, "low"⟩)) none ⟨[], [], []⟩).2 =
      ⟨"assistant", trouble_connecting_reply, none, none⟩ ∧
    (send_message "hello" true (some (⟨"joy", 1/2⟩, ⟨1/10, "low"⟩)) none ⟨[], [], []⟩).1.emotional_data =
      ([] : List EmotionalEvent) ++ [⟨"chat", "hello", ⟨"joy", 1/2⟩, (⟨1/10, "low"⟩ : DepressionInfo).depression_score⟩] ∧
    (send_message "hello" true (some (⟨"joy", 1/2⟩, ⟨1/10, "low"⟩)) none ⟨[], [], []⟩).1.depression_scores =
      ([] : List DepressionRecord) ++ [⟨(⟨1/10, "low"⟩ : DepressionInfo).depression_score, (⟨1/10, "low"⟩ : DepressionInfo).depression_level⟩] :=
  C8_generation_failure_keeps_records "hello" ⟨"joy", 1/2⟩ ⟨1/10, "low"⟩ ⟨[], [], []⟩ (by decide)

/-- C10: when the analysis/persistence step raises on a non-empty turn,
the turn continues with the default emotion (unknown, 0.0) and the
default depression analysis (score 0.0, level "unknown"), so the
depression level handed back to the caller is the string "unknown",
which is none of "low", "moderate", "high". -/
theorem C10_analysis_failure_defaults (message : String) (hasDb : Bool)
    (content : String) (st : ChatState) (h : is_blank message = false) :
    (send_message message hasDb none (some content) st).2.depression =
      some ⟨0, "unknown"⟩ ∧
    (send_message message hasDb none (some content) st).2.emotion =
      some ⟨"unknown", 0⟩ ∧
    ("unknown" : String) ≠ "low" ∧ ("unknown" : String) ≠ "moderate" ∧
    ("unknown" : String) ≠ "high" := by
  refine ⟨?_, ?_, by decide, by decide, by decide⟩ <;> simp [send_message, h]

/-- Witness for C10 at the message `"hi"`. -/
theorem C10_analysis_failure_defaults_witness :
    (send_message "hi" true none (some "ok") ⟨[], [], []⟩).2.depression =
      some ⟨0, "unknown"⟩ ∧
    (send_message "hi" true none (some "ok") ⟨[], [], []⟩).2.emotion =
      some ⟨"unknown", 0⟩ ∧
    ("unknown" : String) ≠ "low" ∧ ("unknown" : String) ≠ "moderate" ∧
    ("unknown" : String) ≠ "high" :=
  C10_analysis_failure_defaults "hi" true "ok" ⟨[], [], []⟩ (by decide)

/-- C9: whenever every present modality score lies in [0,1], the fused
score returned by fuse_emotions lies in [0,1], and the depression score
returned by detect_depression lies in [0,1]. -/
theorem C9_scores_in_unit_interval (t a i : Option Emotion)
    (ht : ∀ e, t = some e → 0 ≤ e.score ∧ e.score ≤ 1)
    (ha : ∀ e, a = some e → 0 ≤ e.score ∧ e.score ≤ 1)
    (hi : ∀ e, i = some e → 0 ≤ e.score ∧ e.score ≤ 1) :
    (0 ≤ (fuse_emotions t a i).score ∧ (fuse_emotions t a i).score ≤ 1) ∧
    (0 ≤ (detect_depression t a i).depression_score ∧
      (detect_depression t a i).depression_score ≤ 1) := by
  have hfuse : 0 ≤ (fuse_emotions t a i).score ∧ (fuse_emotions t a i).score ≤ 1 := by
    cases t with
    | none =>
        cases a with
        | none =>
            cases i with
            | none => constructor <;> norm_num [fuse_emotions]
            | some ei => simpa [fuse_emotions] using hi ei rfl
        | some ea =>
            cases i with
            | none => simpa [fuse_emotions] using ha ea rfl
            | some ei =>
                obtain ⟨ha0, ha1⟩ := ha ea rfl
                obtain ⟨hi0, hi1⟩ := hi ei rfl
                by_cases hlab : ea.label = ei.label
                · simp only [fuse_emotions, if_pos hlab]
                  constructor <;> linarith
                · simp only [fuse_emotions, if_neg hlab]
                  constructor
                  · exact le_trans (by linarith) (le_max_left _ _)
                  · exact max_le (by linarith) (by linarith)
    | some et =>
        cases a with
        | none =>
            cases i with
            | none => simpa [fuse_emotions] using ht et rfl
            | some ei =>
                obtain ⟨ht0, ht1⟩ := ht et rfl
                obtain ⟨hi0, hi1⟩ := hi ei rfl
                by_cases hlab : et.label = ei.label
                · simp only [fuse_emotions, if_pos hlab]
                  constructor <;> linarith
                · simp only [fuse_emotions, if_neg hlab]
                  constructor
                  · exact le_trans (by linarith) (le_max_left _ _)
                  · exact max_le (by linarith) (by linarith)
        | some ea =>
            cases i with
            | none => simpa [fuse_emotions] using ht et rfl
            | some ei =>
                obtain ⟨ht0, ht1⟩ := ht et rfl
                obtain ⟨ha0, ha1⟩ := ha ea rfl
                obtain ⟨hi0, hi1⟩ := hi ei rfl
                have hall : ∀ q ∈ insertKV (insertKV (insertKV []
                    et.label (et.score * (5/10))) ea.label (ea.score * (3/10)))
                    ei.label (ei.score * (2/10)), 0 ≤ q.2 ∧ q.2 ≤ 1 := by
                  refine insertKV_forall (fun v => 0 ≤ v ∧ v ≤ 1) _ _ _ ?_ ?_
                  · refine insertKV_forall (fun v => 0 ≤ v ∧ v ≤ 1) _ _ _ ?_ ?_
                    · refine insertKV_forall (fun v => 0 ≤ v ∧ v ≤ 1) _ _ _ ?_ ?_
                      · intro q hq
                        simp at hq
                      · constructor <;> linarith
                    · constructor <;> linarith
                  · constructor <;> linarith
                have hb := maxByValue_bound _ hall
                simpa [fuse_emotions] using hb
  refine ⟨hfuse, ?_⟩
  have hind := depression_indicators_bounds (py_lower (fuse_emotions t a i).label)
  have hp0 : 0 ≤ depression_indicators (py_lower (fuse_emotions t a i).label) *
      (fuse_emotions t a i).score := mul_nonneg hind.1 hfuse.1
  have hp1 : depression_indicators (py_lower (fuse_emotions t a i).label) *
      (fuse_emotions t a i).score ≤ 1 := mul_le_one₀ hind.2 hfuse.1 hfuse.2
  have hr := round2_bounds _ hp0 hp1
  simpa [detect_depression] using hr

/-- Witness for C9 at a single text input (sadness, 0.5). -/
theorem C9_scores_in_unit_interval_witness :
    (0 ≤ (fuse_emotions (some ⟨"sadness", 1/2⟩) none none).score ∧
      (fuse_emotions (some ⟨"sadness", 1/2⟩) none none).score ≤ 1) ∧
    (0 ≤ (detect_depression (some ⟨"sadness", 1/2⟩) none none).depression_score ∧
      (detect_depression (some ⟨"sadness", 1/2⟩) none none).depression_score ≤ 1) :=
  C9_scores_in_unit_interval (some ⟨"sadness", 1/2⟩) none none
    (fun e he => by injection he with h; subst h; norm_num)
    (fun e he => by simp at he)
    (fun e he => by simp at he)
